import Mathlib

/-!
Verification of the adminappbackend Express/pg REST service.

The file shallowly embeds the request handlers of `src/server.js` and the
daily-report/daily-receivables handlers (the second source file of the
repository) as pure Lean functions over an explicit database state (a list of
rows per table).  JavaScript runtime values occurring in JSON request bodies
are modelled by `JsValue`; JavaScript numbers are modelled by `JNum`
(`Option ℚ`, `none` standing for NaN — exact rationals stand in for IEEE
doubles, which is sound for the claims proved here because every claim
equates the handler's result with the very expression the handler computes,
in the same operation order).
-/

/-- JavaScript numbers: `none` is NaN, `some q` a finite number. -/
abbrev JNum := Option ℚ

/-- JSON-style JavaScript runtime values as they occur in parsed request
bodies (plus `undef` for absent properties).  Arrays are not needed by any
handler modelled here and are omitted. -/
inductive JsValue where
  | undef
  | null
  | bool (b : Bool)
  | num (j : JNum)
  | str (s : String)
  | obj (fields : List (String × JsValue))

/-- JavaScript truthiness (`Boolean(v)`): `undefined`, `null`, `false`, `0`,
`NaN` and `""` are falsy, everything else (including any object) is truthy. -/
def truthy : JsValue → Bool
  | .undef => false
  | .null => false
  | .bool b => b
  | .num none => false
  | .num (some q) => decide (q ≠ 0)
  | .str s => decide (s ≠ "")
  | .obj _ => true

/-- Numeric value of a decimal digit character. -/
def digToNat (c : Char) : ℕ := c.toNat - 48

/-- Split a character list into its longest decimal-digit prefix (as digit
values) and the remainder. -/
def takeDigits : List Char → List ℕ × List Char
  | [] => ([], [])
  | c :: cs =>
    if c.isDigit then
      let r := takeDigits cs
      (digToNat c :: r.1, r.2)
    else ([], c :: cs)

/-- Integer denoted by a digit list (most significant first). -/
def natFromDigits (ds : List ℕ) : ℕ := ds.foldl (fun a d => 10 * a + d) 0

/-- Fraction denoted by a digit list read after a decimal point. -/
def fracFromDigits (ds : List ℕ) : ℚ := ds.foldr (fun d a => ((d : ℚ) + a) / 10) 0

/-- Parse a decimal mantissa (`digits`, `digits.digits`, `digits.` or
`.digits`) from the front of a character list.  Returns the value and the
unconsumed remainder; `none` when no mantissa is present. -/
def parseMantissa (cs : List Char) : Option (ℚ × List Char) :=
  let ip := takeDigits cs
  match ip.2 with
  | '.' :: r2 =>
    let fp := takeDigits r2
    if ip.1.isEmpty && fp.1.isEmpty then none
    else some ((natFromDigits ip.1 : ℚ) + fracFromDigits fp.1, fp.2)
  | _ => if ip.1.isEmpty then none else some ((natFromDigits ip.1 : ℚ), ip.2)

/-- Parse an optional exponent part (`e`/`E`, optional sign, digits) from the
front of a character list.  When the pattern is not present the exponent is 0
and nothing is consumed (as in JavaScript, where `parseFloat("1e")` is 1). -/
def parseExpPart (cs : List Char) : ℤ × List Char :=
  match cs with
  | c :: rest =>
    if c = 'e' || c = 'E' then
      match rest with
      | s :: r2 =>
        if s = '+' then
          let d := takeDigits r2
          if d.1.isEmpty then (0, cs) else ((natFromDigits d.1 : ℤ), d.2)
        else if s = '-' then
          let d := takeDigits r2
          if d.1.isEmpty then (0, cs) else (-(natFromDigits d.1 : ℤ), d.2)
        else
          let d := takeDigits rest
          if d.1.isEmpty then (0, cs) else ((natFromDigits d.1 : ℤ), d.2)
      | [] => (0, cs)
    else (0, cs)
  | [] => (0, cs)

/-- Parse a signed decimal number (mantissa plus optional exponent) with the
given sign already applied. -/
def parseNumAfterSign (sign : ℚ) (cs : List Char) : Option (ℚ × List Char) :=
  match parseMantissa cs with
  | none => none
  | some (m, r) =>
    let e := parseExpPart r
    some (sign * m * (10 : ℚ) ^ e.1, e.2)

/-- Parse a signed decimal number from the front of a character list. -/
def parseSigned (cs : List Char) : Option (ℚ × List Char) :=
  match cs with
  | '-' :: r => parseNumAfterSign (-1) r
  | '+' :: r => parseNumAfterSign 1 r
  | r => parseNumAfterSign 1 r

/-- JavaScript whitespace for the purposes of number parsing. -/
def isJsSpace (c : Char) : Bool :=
  c = ' ' || c = '\t' || c = '\n' || c = '\r' || c = '\x0b' || c = '\x0c'

/-- `parseFloat` on a string: skip leading whitespace, read the longest
numeric prefix, NaN when there is none.  (`Infinity` and hex forms are not
modelled; no handler input in the claims uses them.) -/
def parseFloatStr (s : String) : JNum :=
  match parseSigned (s.data.dropWhile isJsSpace) with
  | some (q, _) => some q
  | none => none

/-- `Number` conversion of a string: whitespace-only is 0, otherwise the
whole trimmed string must be a decimal number, else NaN. -/
def strToNumber (s : String) : JNum :=
  let core := ((s.data.dropWhile isJsSpace).reverse.dropWhile isJsSpace).reverse
  if core.isEmpty then some 0
  else
    match parseSigned core with
    | some (q, []) => some q
    | _ => none

/-- `Number(v)` coercion (`ToNumber`).  A plain object converts via its
string form `"[object Object]"`, hence NaN. -/
def toNumber : JsValue → JNum
  | .undef => none
  | .null => some 0
  | .bool b => some (if b then 1 else 0)
  | .num j => j
  | .str s => strToNumber s
  | .obj _ => none

/-- `parseFloat(v)`: the argument is first converted to a string; on an
actual number this recovers the number (NaN stays NaN), on `true`, `null`,
`undefined` and plain objects the string form has no numeric prefix. -/
def jsParseFloatV : JsValue → JNum
  | .num j => j
  | .str s => parseFloatStr s
  | _ => none

/-- Addition on JavaScript numbers: NaN is absorbing. -/
def jnAdd : JNum → JNum → JNum
  | some a, some b => some (a + b)
  | _, _ => none

/-- Subtraction on JavaScript numbers: NaN is absorbing. -/
def jnSub : JNum → JNum → JNum
  | some a, some b => some (a - b)
  | _, _ => none

/-- `ToPrimitive` as used by `+`: plain objects become the string
`"[object Object]"`, primitives are unchanged. -/
def jsToPrim (v : JsValue) : JsValue :=
  match v with
  | .obj _ => .str "[object Object]"
  | x => x

/-- Is the value a string? -/
def isStr : JsValue → Bool
  | .str _ => true
  | _ => false

/-- `ToString` on primitives (number formatting is approximated by the
rational's textual form; no claim depends on a particular spelling). -/
def jsToString : JsValue → String
  | .undef => "undefined"
  | .null => "null"
  | .bool true => "true"
  | .bool false => "false"
  | .num none => "NaN"
  | .num (some q) => toString q
  | .str s => s
  | .obj _ => "[object Object]"

/-- The JavaScript `+` operator: string concatenation when either primitive
operand is a string, numeric addition otherwise. -/
def jsAdd (a b : JsValue) : JsValue :=
  let pa := jsToPrim a
  let pb := jsToPrim b
  if isStr pa || isStr pb then .str (jsToString pa ++ jsToString pb)
  else .num (jnAdd (toNumber pa) (toNumber pb))

/-- The JavaScript `-` operator: always numeric. -/
def jsSubN (a b : JsValue) : JNum := jnSub (toNumber a) (toNumber b)

/-- Field lookup in an object literal's field list (`undefined` when the key
is not present). -/
def jsGetFields : List (String × JsValue) → String → JsValue
  | [], _ => .undef
  | p :: ps, k => if p.1 = k then p.2 else jsGetFields ps k

/-- Property access `o[k]`: throws (TypeError) on `null`/`undefined`,
`undefined` on other primitives, field lookup on objects. -/
def propGet : JsValue → String → Except Unit JsValue
  | .undef, _ => .error ()
  | .null, _ => .error ()
  | .obj fs, k => .ok (jsGetFields fs k)
  | _, _ => .ok (.undef)

/-- `Object.values(v)`: throws on `null`/`undefined`; a string contributes
its characters, other primitives contribute nothing. -/
def objValues : JsValue → Except Unit (List JsValue)
  | .undef => .error ()
  | .null => .error ()
  | .obj fs => .ok (fs.map Prod.snd)
  | .str s => .ok (s.data.map (fun c => .str (String.mk [c])))
  | _ => .ok []

/-- `vs.reduce((sum, val) => sum + Number(val), 0)`: since the accumulator
starts at the number 0 and `Number(val)` is a number, the `+` here is always
numeric addition. -/
def numSum (vs : List JsValue) : JNum :=
  vs.foldl (fun sum val => jnAdd sum (toNumber val)) (some 0)

/-- Encode a list of string-keyed rational amounts as a JavaScript object
whose values are all finite numbers. -/
def numObj (l : List (String × ℚ)) : List (String × JsValue) :=
  l.map (fun p => (p.1, JsValue.num (some p.2)))

/-! ## Accounts (`src/server.js`, POST /accounts, DELETE /accounts/:id) -/

/-- A row of `accounts_app.accounts`.  `id` is the database-assigned
surrogate key; `created_at` ordering is irrelevant to the claims and
omitted. -/
structure AccountRow where
  id : ℕ
  name : String
  balance : JsValue
  balance_type : JsValue

/-- Outcome of a POST /accounts request: the HTTP status, the resulting
table state, and how many SQL statements were executed before the handler
answered. -/
structure PostAccountsResult where
  status : ℕ
  db : List AccountRow
  queriesRun : ℕ

/-- `s.trim()` on a string: strip leading and trailing whitespace. -/
def jsTrim (s : String) : String :=
  String.mk (((s.data.dropWhile isJsSpace).reverse.dropWhile isJsSpace).reverse)

/-- `name.trim()`: on a string it trims whitespace, on every other JSON
value it throws a TypeError (no `trim` method). -/
def jsTrimName : JsValue → Except Unit String
  | .str s => .ok (jsTrim s)
  | _ => .error ()

/-- Fresh surrogate id for an insert (any value unused so far). -/
def nextAccountId (db : List AccountRow) : ℕ :=
  (db.map AccountRow.id).foldr max 0 + 1

/-- POST /accounts: evaluate `name.trim()` (throwing — caught as a 500 —
when `name` is not a string, before any query), then SELECT by the trimmed
name; a hit answers 400 without inserting, otherwise INSERT the trimmed
name together with the untouched `balance`/`balanceType` and answer 201. -/
def postAccounts (db : List AccountRow) (name balance balanceType : JsValue) :
    PostAccountsResult :=
  match jsTrimName name with
  | .error _ => ⟨500, db, 0⟩
  | .ok t =>
    if db.any (fun a => a.name = t) then ⟨400, db, 1⟩
    else ⟨201, db ++ [⟨nextAccountId db, t, balance, balanceType⟩], 2⟩

/-- Run a sequence of POST /accounts requests (name, balance, balanceType)
against an initial table state. -/
def runPostAccounts (reqs : List (JsValue × JsValue × JsValue))
    (db : List AccountRow) : List AccountRow :=
  reqs.foldl (fun acc r => (postAccounts acc r.1 r.2.1 r.2.2).db) db

/-- DELETE /accounts/:id: unconditional DELETE, always answers 200 with a
success message (no affected-row check). -/
def deleteAccount (db : List AccountRow) (id : ℕ) :
    ℕ × String × List AccountRow :=
  (200, "Account deleted successfully", db.filter (fun a => a.id ≠ id))

/-! ## Transactions (`src/server.js`, POST /accounts/:id/transactions,
PUT /transactions/:id) -/

/-- Outcome of POST /accounts/:id/transactions. -/
inductive TxOutcome where
  | badRequest (msg : String)
  | created (debit credit : JNum)

/-- POST /accounts/:id/transactions: reject 400 when both `debit` and
`credit` are falsy, coerce each falsy value to 0 and each truthy value via
`parseFloat`, reject 400 when either coercion is NaN, else insert. -/
def postTransaction (debit credit : JsValue) : TxOutcome :=
  if ¬ truthy debit ∧ ¬ truthy credit then
    .badRequest "Either debit or credit must be entered."
  else
    let d := if truthy debit then jsParseFloatV debit else some 0
    let c := if truthy credit then jsParseFloatV credit else some 0
    if d = none ∨ c = none then
      .badRequest "Invalid numeric input for debit or credit."
    else .created d c

/-- Outcome of PUT /transactions/:id: the handler has no validation branch
and always forwards the four body fields to the UPDATE statement. -/
inductive PutTxOutcome where
  | update (date debit credit details : JsValue)

/-- PUT /transactions/:id: forward the body fields unchecked. -/
def putTransaction (date debit credit details : JsValue) : PutTxOutcome :=
  .update date debit credit details

/-! ## Cheques (`src/server.js`, POST /cheques, GET /cheques/:cheque_number,
DELETE /cheques/:cheque_number) -/

/-- A row of the `cheques` table.  `amount` and `admin_charge` are numeric
columns; `net_to_payee` is never supplied by POST /cheques and remains NULL
(`none`); `date_posted` is a date column kept in canonical `YYYY-MM-DD`
textual form. -/
structure ChequeRow where
  cheque_number : String
  bank_drawn : String
  payer : String
  payee : String
  amount : ℚ
  admin_charge : ℚ
  net_to_payee : Option ℚ
  date_posted : Option String
  status : String

/-- Database coercion of a bound parameter into a text column.  A string
binds verbatim; the driver serialises a number or a boolean, so the column
stores its string form (node-pg ends up writing `String(val)`; the number
spelling shares `jsToString`'s approximation).  A plain object would be
stored as its JSON text, and `null`/`undefined` bind as SQL NULL — both are
unreachable through POST /cheques, whose truthiness guard never lets a
null-ish field reach the INSERT, and no claim exercises an object in a text
field, so these two cases are left out of the model. -/
def pgText : JsValue → Option String
  | .str s => some s
  | .num j => some (jsToString (.num j))
  | .bool b => some (jsToString (.bool b))
  | _ => none

/-- Database coercion of a bound parameter into a numeric column: a finite
number is taken as is, a string must be entirely a decimal number; anything
else fails the INSERT. -/
def pgNumeric : JsValue → Option ℚ
  | .num (some q) => some q
  | .str s =>
    (match parseSigned ((s.data.dropWhile isJsSpace).reverse.dropWhile isJsSpace |>.reverse) with
     | some (q, []) => some q
     | _ => none)
  | _ => none

/-- Database coercion of a bound parameter into the `date_posted` date
column, returned as the stored day's canonical `YYYY-MM-DD` text (which is
also what the GET formatter's `toISOString().split("T")[0]` re-serialises).
Postgres parses and normalises many date spellings; modelled here is the
four-digit-year form with `-` or `/` separators (month 01–12, day 01–31;
finer calendar validity of in-range days, month-name and DMY/MDY spellings,
and compact digit strings are not modelled — no claim needs them).  The
normalisation is what makes a non-canonical submission come back changed. -/
def pgDate : JsValue → Option String
  | .str s =>
    (match s.data with
     | [y1, y2, y3, y4, s1, m1, m2, s2, d1, d2] =>
       if y1.isDigit && y2.isDigit && y3.isDigit && y4.isDigit &&
           (s1 = '-' || s1 = '/') && m1.isDigit && m2.isDigit &&
           (s2 = '-' || s2 = '/') && d1.isDigit && d2.isDigit &&
           decide (1 ≤ 10 * digToNat m1 + digToNat m2) &&
           decide (10 * digToNat m1 + digToNat m2 ≤ 12) &&
           decide (1 ≤ 10 * digToNat d1 + digToNat d2) &&
           decide (10 * digToNat d1 + digToNat d2 ≤ 31) then
         some (String.mk [y1, y2, y3, y4, '-', m1, m2, '-', d1, d2])
       else none
     | _ => none)
  | _ => none

/-- Outcome of POST /cheques. -/
inductive ChequeInsertOutcome where
  | badRequest
  | dbError
  | okDb (db : List ChequeRow)

/-- POST /cheques: 400 unless all eight body fields are truthy; then INSERT
the eight fields, the database coercing each to its column type (a failed
coercion, or a duplicate of the `cheque_number` natural key, surfaces as the
generic 500).  `net_to_payee` is not part of the INSERT column list. -/
def postCheque (db : List ChequeRow) (cheque_number bank_drawn payer payee
    amount admin_charge date_posted status : JsValue) : ChequeInsertOutcome :=
  if ¬ (truthy cheque_number ∧ truthy bank_drawn ∧ truthy payer ∧
        truthy payee ∧ truthy amount ∧ truthy admin_charge ∧
        truthy date_posted ∧ truthy status) then .badRequest
  else
    match pgText cheque_number, pgText bank_drawn, pgText payer, pgText payee,
        pgNumeric amount, pgNumeric admin_charge, pgDate date_posted,
        pgText status with
    | some n, some bd, some py, some pe, some am, some ac, some dp, some st =>
      if db.any (fun c => c.cheque_number = n) then .dbError
      else .okDb (db ++ [⟨n, bd, py, pe, am, ac, none, some dp, st⟩])
    | _, _, _, _, _, _, _, _ => .dbError

/-- The response shape of GET /cheques/:cheque_number after its numeric and
date formatting. -/
structure FormattedCheque where
  cheque_number : String
  bank_drawn : String
  payer : String
  payee : String
  amount : JNum
  admin_charge : JNum
  net_to_payee : JNum
  date_posted : Option String
  status : String

/-- GET /cheques/:cheque_number: 404 (`none`) when no row matches, else the
row with `amount`, `admin_charge` and `net_to_payee` passed through
`parseFloat` (the driver returns numeric columns as decimal strings, so this
recovers the stored value; a NULL `net_to_payee` becomes NaN) and
`date_posted` re-serialised as `YYYY-MM-DD` (the identity on the canonical
stored text) or kept `null`. -/
def getCheque (db : List ChequeRow) (n : String) : Option FormattedCheque :=
  match db.find? (fun c => c.cheque_number = n) with
  | none => none
  | some c =>
    some ⟨c.cheque_number, c.bank_drawn, c.payer, c.payee,
      some c.amount, some c.admin_charge,
      (match c.net_to_payee with
       | some q => some q
       | none => none),
      c.date_posted, c.status⟩

/-- DELETE /cheques/:cheque_number: DELETE with RETURNING; 404 when the
returned row set is empty, 200 with a success message otherwise. -/
def deleteCheque (db : List ChequeRow) (n : String) :
    ℕ × String × List ChequeRow :=
  if db.any (fun c => c.cheque_number = n) then
    (200, "Cheque deleted successfully", db.filter (fun c => c.cheque_number ≠ n))
  else (404, "Cheque not found", db)

/-! ## Daily receivables (second source file: POST /daily-receivables,
PUT /daily-receivables/finish/:date, DELETE /daily-receivables/:date) -/

/-- A row of `daily_receivables`.  `report_date` is kept as its canonical
`DATE::TEXT` form; `report_data` is the stored JSONB document (stringified
on the way in and parsed on the way out, the identity on the object). -/
structure ReceivablesRow where
  report_date : String
  opening_balance : JNum
  closing_balance : JNum
  report_data : JsValue
  status : String

/-- The numeric-field normalisation of the daily-receivables handlers:
`v === "" || v === undefined ? 0 : parseFloat(v)`. -/
def coerceBalance : JsValue → JNum
  | .str "" => some 0
  | .undef => some 0
  | v => jsParseFloatV v

/-- `report_data && typeof report_data === "object" ? report_data : {}`:
objects pass through, everything else (including `null`, which is falsy) is
replaced by the empty object. -/
def normalizeReportData : JsValue → JsValue
  | .obj fs => .obj fs
  | _ => .obj []

/-- Outcome of a daily-receivables mutation: HTTP status and table state. -/
structure ReceivablesResult where
  status : ℕ
  db : List ReceivablesRow

/-- POST /daily-receivables: 400 when `report_date` is falsy; otherwise
normalise the two balances and `report_data`, SELECT by `report_date`, and
either UPDATE every matching row's three data fields in place (leaving
`status` untouched) or INSERT a fresh row with status `'open'`. -/
def postDailyReceivables (db : List ReceivablesRow) (report_date : String)
    (opening_balance closing_balance report_data : JsValue) :
    ReceivablesResult :=
  if report_date = "" then ⟨400, db⟩
  else
    let o := coerceBalance opening_balance
    let c := coerceBalance closing_balance
    let r := normalizeReportData report_data
    if db.any (fun row => row.report_date = report_date) then
      ⟨200, db.map (fun row =>
        if row.report_date = report_date then
          { row with opening_balance := o, closing_balance := c, report_data := r }
        else row)⟩
    else ⟨200, db ++ [⟨report_date, o, c, r, "open"⟩]⟩

/-- `text LIKE 'pat%'`: does `text` start with `pat`? -/
def likeMatch : List Char → List Char → Bool
  | [], _ => true
  | _ :: _, [] => false
  | p :: ps, c :: cs => p = c && likeMatch ps cs

/-- PUT /daily-receivables/finish/:date, modelled at the point after the
handler's date normalisation (`new Date(d).toISOString().split("T")[0]`,
the identity on a canonical `YYYY-MM-DD` parameter): UPDATE sets
`status = 'finished'` on every row whose `report_date::TEXT` matches
`LIKE 'formattedDate%'`, leaving all other columns untouched; when no row
matched, 404 and no change. -/
def finishDailyReceivables (db : List ReceivablesRow) (formattedDate : String) :
    ReceivablesResult :=
  if db.any (fun r => likeMatch formattedDate.data r.report_date.data) then
    ⟨200, db.map (fun r =>
      if likeMatch formattedDate.data r.report_date.data then
        { r with status := "finished" }
      else r)⟩
  else ⟨404, db⟩

/-- DELETE /daily-receivables/:date: DELETE with RETURNING; 404 when
nothing matched, 200 with a success message otherwise. -/
def deleteDailyReceivables (db : List ReceivablesRow) (date : String) :
    ℕ × String × List ReceivablesRow :=
  if db.any (fun r => r.report_date = date) then
    (200, "Report deleted successfully", db.filter (fun r => r.report_date ≠ date))
  else (404, "No report found to delete", db)

/-! ## Structured daily report (second source file: POST /daily-report,
PUT /daily-report/:id, DELETE /daily-report/:id) -/

/-- The request body of POST /daily-report and PUT /daily-report/:id as
destructured by the handlers (`cash_payouts` is destructured but never
used). -/
structure DailyReportBody where
  report_date : JsValue
  cash_particulars : JsValue
  credit_particulars : JsValue
  outbound_cash_sale : JsValue
  cash_correspondence : JsValue
  cash_bf : JsValue
  starting_cash : JsValue
  total_proceedings : JsValue
  cash_payouts : JsValue

/-- The five derived scalars both daily-report handlers compute. -/
structure DailyReportDerived where
  total_cash_payouts : JNum
  total_cash_proceedings : JNum
  subtotal : JNum
  cash_surplus_deficit : JNum
  overall_sales : JNum

/-- The auto-calculate block of POST /daily-report:
`total_cash_payouts = Object.values(outbound_cash_sale).reduce(...)`,
`total_cash_proceedings = Object.values(cash_particulars).reduce(...)`,
`subtotal` their sum, `cash_surplus_deficit = cash_bf + starting_cash -
subtotal`, and `overall_sales` from the four named entries of
`total_proceedings`.  An exception (`Object.values` or property access on
`null`/`undefined`) propagates to the handler's catch. -/
def deriveCreate (b : DailyReportBody) : Except Unit DailyReportDerived :=
  match objValues b.outbound_cash_sale, objValues b.cash_particulars,
      propGet b.total_proceedings "Cash Sales",
      propGet b.total_proceedings "Credit Sales",
      propGet b.total_proceedings "Outbound Sales",
      propGet b.total_proceedings "Cash Payouts" with
  | .ok ocs, .ok cps, .ok cs, .ok crs, .ok os, .ok cp =>
    let total_cash_payouts := numSum ocs
    let total_cash_proceedings := numSum cps
    let subtotal := jnAdd total_cash_payouts total_cash_proceedings
    let cash_surplus_deficit :=
      jsSubN (jsAdd b.cash_bf b.starting_cash) (.num subtotal)
    let overall_sales := jsSubN (jsAdd (jsAdd cs crs) os) cp
    .ok ⟨total_cash_payouts, total_cash_proceedings, subtotal,
      cash_surplus_deficit, overall_sales⟩
  | _, _, _, _, _, _ => .error ()

/-- The auto-calculate block of PUT /daily-report/:id — transcribed from the
update handler, whose arithmetic is line-for-line the same as the create
handler's. -/
def deriveUpdate (b : DailyReportBody) : Except Unit DailyReportDerived :=
  match objValues b.outbound_cash_sale, objValues b.cash_particulars,
      propGet b.total_proceedings "Cash Sales",
      propGet b.total_proceedings "Credit Sales",
      propGet b.total_proceedings "Outbound Sales",
      propGet b.total_proceedings "Cash Payouts" with
  | .ok ocs, .ok cps, .ok cs, .ok crs, .ok os, .ok cp =>
    let total_cash_payouts := numSum ocs
    let total_cash_proceedings := numSum cps
    let subtotal := jnAdd total_cash_payouts total_cash_proceedings
    let cash_surplus_deficit :=
      jsSubN (jsAdd b.cash_bf b.starting_cash) (.num subtotal)
    let overall_sales := jsSubN (jsAdd (jsAdd cs crs) os) cp
    .ok ⟨total_cash_payouts, total_cash_proceedings, subtotal,
      cash_surplus_deficit, overall_sales⟩
  | _, _, _, _, _, _ => .error ()

/-- The 13-column tuple POST /daily-report binds into its INSERT: the raw
request fields together with the five derived scalars. -/
structure DailyReportInsert where
  report_date : JsValue
  cash_particulars : JsValue
  credit_particulars : JsValue
  outbound_cash_sale : JsValue
  cash_correspondence : JsValue
  total_cash_payouts : JNum
  total_cash_proceedings : JNum
  subtotal : JNum
  cash_bf : JsValue
  starting_cash : JsValue
  cash_surplus_deficit : JNum
  total_proceedings : JsValue
  overall_sales : JNum

/-- The 12-column SET tuple PUT /daily-report/:id binds into its UPDATE
(no `report_date`), keyed by `id`. -/
structure DailyReportUpdate where
  id : String
  cash_particulars : JsValue
  credit_particulars : JsValue
  outbound_cash_sale : JsValue
  cash_correspondence : JsValue
  total_cash_payouts : JNum
  total_cash_proceedings : JNum
  subtotal : JNum
  cash_bf : JsValue
  starting_cash : JsValue
  cash_surplus_deficit : JNum
  total_proceedings : JsValue
  overall_sales : JNum

/-- POST /daily-report: run the auto-calculate block (an exception is the
generic 500) and bind raw fields plus derived scalars into the INSERT. -/
def postDailyReport (b : DailyReportBody) : Except Unit DailyReportInsert :=
  match deriveCreate b with
  | .error e => .error e
  | .ok d =>
    .ok ⟨b.report_date, b.cash_particulars, b.credit_particulars,
      b.outbound_cash_sale, b.cash_correspondence, d.total_cash_payouts,
      d.total_cash_proceedings, d.subtotal, b.cash_bf, b.starting_cash,
      d.cash_surplus_deficit, b.total_proceedings, d.overall_sales⟩

/-- PUT /daily-report/:id: run the auto-calculate block (an exception is the
generic 500) and bind raw fields plus derived scalars into the UPDATE. -/
def putDailyReport (id : String) (b : DailyReportBody) :
    Except Unit DailyReportUpdate :=
  match deriveUpdate b with
  | .error e => .error e
  | .ok d =>
    .ok ⟨id, b.cash_particulars, b.credit_particulars,
      b.outbound_cash_sale, b.cash_correspondence, d.total_cash_payouts,
      d.total_cash_proceedings, d.subtotal, b.cash_bf, b.starting_cash,
      d.cash_surplus_deficit, b.total_proceedings, d.overall_sales⟩

/-- A stored `daily_reports` row: the surrogate id plus the column tuple. -/
structure DailyReportStored where
  id : String
  row : DailyReportInsert

/-- DELETE /daily-report/:id: unconditional DELETE, always answers 200 with
a success message (no affected-row check). -/
def deleteDailyReport (db : List DailyReportStored) (id : String) :
    ℕ × String × List DailyReportStored :=
  (200, "✅ Report deleted successfully!", db.filter (fun r => r.id ≠ id))

/-! ## Concrete example inputs (used by witnesses and counterexamples) -/

/-- The `total_proceedings` map of the spec-style example body. -/
def exTp : List (String × JsValue) :=
  numObj [("Cash Sales", 10), ("Credit Sales", 20), ("Outbound Sales", 30),
    ("Cash Payouts", 15)]

/-- Example daily-report body (the spec's §8 example, extended with a
four-key `total_proceedings`). -/
def exBody : DailyReportBody :=
  ⟨.str "2024-01-01", .obj (numObj [("a", 100), ("b", 50)]), .null,
    .obj (numObj [("c", 30)]), .null, .num (some 20), .num (some 10),
    .obj exTp, .undef⟩

/-- Daily-report body whose `total_proceedings` lacks the key
`"Cash Payouts"`. -/
def exBodyMissingKey : DailyReportBody :=
  ⟨.str "2024-02-02", .obj (numObj [("a", 100)]), .null,
    .obj (numObj [("c", 30)]), .null, .num (some 20), .num (some 10),
    .obj (numObj [("Cash Sales", 1), ("Credit Sales", 2),
      ("Outbound Sales", 3)]), .undef⟩

/-- An accounts table holding the single account `"Acme"`. -/
def exAccountsDb : List AccountRow := [⟨1, "Acme", .null, .null⟩]

/-- A daily-receivables table holding one open report. -/
def exRecDb : List ReceivablesRow :=
  [⟨"2024-01-01", some 0, some 0, .obj [("rows", .num (some 2))], "open"⟩]

/-! ## Supporting lemmas -/

theorem numSum_go (l : List (String × ℚ)) (a : ℚ) :
    ((numObj l).map Prod.snd).foldl (fun sum val => jnAdd sum (toNumber val))
      (some a) = some (a + (l.map Prod.snd).sum) := by
  induction l generalizing a with
  | nil => simp [numObj]
  | cons p ps ih =>
    simp only [numObj, List.map_cons, List.foldl_cons, List.sum_cons] at *
    rw [show toNumber (JsValue.num (some p.2)) = some p.2 from rfl]
    rw [show jnAdd (some a) (some p.2) = some (a + p.2) from rfl]
    rw [ih]
    ring_nf

theorem numSum_numObj (l : List (String × ℚ)) :
    numSum ((numObj l).map Prod.snd) = some ((l.map Prod.snd).sum) := by
  have h := numSum_go l 0
  simpa [numSum] using h

theorem likeMatch_self (l : List Char) : likeMatch l l = true := by
  induction l with
  | nil => rfl
  | cons c cs ih => simp [likeMatch, ih]

theorem likeMatch_length_le (p t : List Char) (h : likeMatch p t = true) :
    p.length ≤ t.length := by
  induction p generalizing t with
  | nil => simp
  | cons c cs ih =>
    cases t with
    | nil => simp [likeMatch] at h
    | cons x xs =>
      simp only [likeMatch, Bool.and_eq_true] at h
      simpa [Nat.succ_le_succ_iff] using ih xs h.2

theorem likeMatch_eq_of_le (p t : List Char) (h : likeMatch p t = true)
    (hl : t.length ≤ p.length) : p = t := by
  induction p generalizing t with
  | nil =>
    cases t with
    | nil => rfl
    | cons x xs => simp at hl
  | cons c cs ih =>
    cases t with
    | nil => simp [likeMatch] at h
    | cons x xs =>
      simp only [likeMatch, Bool.and_eq_true, decide_eq_true_eq] at h
      simp only [List.length_cons, Nat.succ_le_succ_iff] at hl
      rw [h.1, ih xs h.2 hl]

theorem jsGetFields_of_numeric (tp : List (String × JsValue)) (k : String)
    (h : ∀ p ∈ tp, ∃ q : ℚ, p.2 = .num (some q)) :
    jsGetFields tp k = .undef ∨ ∃ q : ℚ, jsGetFields tp k = .num (some q) := by
  induction tp with
  | nil => exact Or.inl rfl
  | cons p ps ih =>
    by_cases hk : p.1 = k
    · right
      obtain ⟨q, hq⟩ := h p (List.mem_cons_self p ps)
      exact ⟨q, by simp [jsGetFields, hk, hq]⟩
    · have := ih (fun x hx => h x (List.mem_cons_of_mem p hx))
      simpa [jsGetFields, hk] using this

theorem overall_nan (cs crs os cp : JsValue)
    (hcs : cs = .undef ∨ ∃ q : ℚ, cs = .num (some q))
    (hcrs : crs = .undef ∨ ∃ q : ℚ, crs = .num (some q))
    (hos : os = .undef ∨ ∃ q : ℚ, os = .num (some q))
    (hcp : cp = .undef ∨ ∃ q : ℚ, cp = .num (some q))
    (hone : cs = .undef ∨ crs = .undef ∨ os = .undef ∨ cp = .undef) :
    jsSubN (jsAdd (jsAdd cs crs) os) cp = none := by
  rcases hcs with h1 | ⟨a, h1⟩ <;> rcases hcrs with h2 | ⟨b, h2⟩ <;>
    rcases hos with h3 | ⟨c, h3⟩ <;> rcases hcp with h4 | ⟨d, h4⟩ <;>
    subst h1 <;> subst h2 <;> subst h3 <;> subst h4 <;>
    simp_all [jsAdd, jsSubN, jsToPrim, isStr, toNumber, jnAdd, jnSub]

theorem postAccounts_name_nodup (db : List AccountRow)
    (name balance balanceType : JsValue)
    (h : (db.map AccountRow.name).Nodup) :
    (((postAccounts db name balance balanceType).db).map AccountRow.name).Nodup := by
  cases name with
  | str s =>
    simp only [postAccounts, jsTrimName]
    by_cases hdup : db.any (fun a => a.name = jsTrim s) = true
    · simp only [if_pos hdup]
      exact h
    · simp only [if_neg hdup]
      have hne : ∀ a ∈ db, a.name ≠ jsTrim s := by simpa using hdup
      rw [List.map_append]
      refine List.nodup_append.mpr ⟨h, List.nodup_singleton _, ?_⟩
      intro x hx hmem
      rw [List.map_cons, List.map_nil, List.mem_singleton] at hmem
      obtain ⟨a, ha, rfl⟩ := List.mem_map.mp hx
      exact hne a ha hmem
  | undef => simpa [postAccounts, jsTrimName] using h
  | null => simpa [postAccounts, jsTrimName] using h
  | bool b => simpa [postAccounts, jsTrimName] using h
  | num j => simpa [postAccounts, jsTrimName] using h
  | obj fs => simpa [postAccounts, jsTrimName] using h

theorem runPostAccounts_nodup (reqs : List (JsValue × JsValue × JsValue))
    (db : List AccountRow) (h : (db.map AccountRow.name).Nodup) :
    (((runPostAccounts reqs db)).map AccountRow.name).Nodup := by
  induction reqs generalizing db with
  | nil => simpa [runPostAccounts] using h
  | cons r rs ih =>
    simp only [runPostAccounts, List.foldl_cons]
    exact ih _ (postAccounts_name_nodup db r.1 r.2.1 r.2.2 h)

/-! ## Claim theorems -/

/-- C1: for every POST /daily-report or PUT /daily-report/:id body whose
`cash_particulars` and `outbound_cash_sale` maps carry only numeric values,
whose `cash_bf` and `starting_cash` are numbers, and whose
`total_proceedings` holds numbers at all four keys, the derived scalars the
handlers compute and bind into the INSERT / UPDATE are exactly:
`total_cash_payouts` = the sum of `outbound_cash_sale`'s values,
`total_cash_proceedings` = the sum of `cash_particulars`'s values,
`subtotal` their sum, `cash_surplus_deficit` = `cash_bf` + `starting_cash`
− `subtotal`, and `overall_sales` = CS + CrS + OS − CP. -/
theorem dailyReport_derived_totals
    (b : DailyReportBody) (id : String) (cps ocs : List (String × ℚ))
    (tp : List (String × JsValue)) (bf sc q1 q2 q3 q4 : ℚ)
    (hcp : b.cash_particulars = .obj (numObj cps))
    (hocs : b.outbound_cash_sale = .obj (numObj ocs))
    (hbf : b.cash_bf = .num (some bf))
    (hsc : b.starting_cash = .num (some sc))
    (htp : b.total_proceedings = .obj tp)
    (h1 : jsGetFields tp "Cash Sales" = .num (some q1))
    (h2 : jsGetFields tp "Credit Sales" = .num (some q2))
    (h3 : jsGetFields tp "Outbound Sales" = .num (some q3))
    (h4 : jsGetFields tp "Cash Payouts" = .num (some q4)) :
    postDailyReport b = .ok
      ⟨b.report_date, b.cash_particulars, b.credit_particulars,
        b.outbound_cash_sale, b.cash_correspondence,
        some ((ocs.map Prod.snd).sum), some ((cps.map Prod.snd).sum),
        some ((ocs.map Prod.snd).sum + (cps.map Prod.snd).sum),
        b.cash_bf, b.starting_cash,
        some (bf + sc - ((ocs.map Prod.snd).sum + (cps.map Prod.snd).sum)),
        b.total_proceedings, some (q1 + q2 + q3 - q4)⟩ ∧
    putDailyReport id b = .ok
      ⟨id, b.cash_particulars, b.credit_particulars,
        b.outbound_cash_sale, b.cash_correspondence,
        some ((ocs.map Prod.snd).sum), some ((cps.map Prod.snd).sum),
        some ((ocs.map Prod.snd).sum + (cps.map Prod.snd).sum),
        b.cash_bf, b.starting_cash,
        some (bf + sc - ((ocs.map Prod.snd).sum + (cps.map Prod.snd).sum)),
        b.total_proceedings, some (q1 + q2 + q3 - q4)⟩ := by
  have hder : deriveCreate b = .ok
      ⟨some ((ocs.map Prod.snd).sum), some ((cps.map Prod.snd).sum),
        some ((ocs.map Prod.snd).sum + (cps.map Prod.snd).sum),
        some (bf + sc - ((ocs.map Prod.snd).sum + (cps.map Prod.snd).sum)),
        some (q1 + q2 + q3 - q4)⟩ := by
    simp only [deriveCreate, hcp, hocs, hbf, hsc, htp, objValues, propGet,
      h1, h2, h3, h4]
    simp [numSum_numObj, jsAdd, jsSubN, jsToPrim, isStr, toNumber,
      jnAdd, jnSub]
  have hderU : deriveUpdate b = deriveCreate b := rfl
  constructor
  · simp [postDailyReport, hder]
  · simp [putDailyReport, hderU, hder]

/-- Witness for C1 at the spec's example body: proceedings 150, payouts 30,
subtotal 180, surplus/deficit 20 + 10 − 180 = −150, overall 10 + 20 + 30 −
15 = 45. -/
theorem dailyReport_derived_totals_witness :
    postDailyReport exBody = .ok
      ⟨.str "2024-01-01", .obj (numObj [("a", 100), ("b", 50)]), .null,
        .obj (numObj [("c", 30)]), .null,
        some 30, some 150, some 180, .num (some 20), .num (some 10),
        some (-150), .obj exTp, some 45⟩ := by
  have h := (dailyReport_derived_totals exBody "1" [("a", 100), ("b", 50)]
    [("c", 30)] exTp 20 10 10 20 30 15 rfl rfl rfl rfl rfl
    (by simp [exTp, numObj, jsGetFields]) (by simp [exTp, numObj, jsGetFields])
    (by simp [exTp, numObj, jsGetFields])
    (by simp [exTp, numObj, jsGetFields])).1
  norm_num at h
  exact h

/-- C2: the derived-totals computation of POST /daily-report and of
PUT /daily-report/:id is the same pure function of the request body, and
both handlers persist the raw category maps alongside the five derived
scalars: every raw field of the bound row equals the body's field, and the
derived fields of the bound row are exactly the output of the (shared)
computation. -/
theorem dailyReport_create_update_same
    (b : DailyReportBody) (id : String) :
    deriveUpdate b = deriveCreate b ∧
    (∀ row, postDailyReport b = .ok row →
      row.report_date = b.report_date ∧
      row.cash_particulars = b.cash_particulars ∧
      row.credit_particulars = b.credit_particulars ∧
      row.outbound_cash_sale = b.outbound_cash_sale ∧
      row.cash_correspondence = b.cash_correspondence ∧
      row.cash_bf = b.cash_bf ∧
      row.starting_cash = b.starting_cash ∧
      row.total_proceedings = b.total_proceedings ∧
      deriveCreate b = .ok ⟨row.total_cash_payouts, row.total_cash_proceedings,
        row.subtotal, row.cash_surplus_deficit, row.overall_sales⟩) ∧
    (∀ row, putDailyReport id b = .ok row →
      row.id = id ∧
      row.cash_particulars = b.cash_particulars ∧
      row.credit_particulars = b.credit_particulars ∧
      row.outbound_cash_sale = b.outbound_cash_sale ∧
      row.cash_correspondence = b.cash_correspondence ∧
      row.cash_bf = b.cash_bf ∧
      row.starting_cash = b.starting_cash ∧
      row.total_proceedings = b.total_proceedings ∧
      deriveUpdate b = .ok ⟨row.total_cash_payouts, row.total_cash_proceedings,
        row.subtotal, row.cash_surplus_deficit, row.overall_sales⟩) := by
  refine ⟨rfl, ?_, ?_⟩
  · intro row hrow
    cases hd : deriveCreate b with
    | error e => simp [postDailyReport, hd] at hrow
    | ok d =>
      simp only [postDailyReport, hd] at hrow
      cases hrow
      simp [hd]
  · intro row hrow
    cases hd : deriveUpdate b with
    | error e => simp [putDailyReport, hd] at hrow
    | ok d =>
      simp only [putDailyReport, hd] at hrow
      cases hrow
      simp [hd]

/-- Witness for C2 at the example body: the create computation agrees with
the update computation and both bound rows carry the raw maps plus the
derived scalars. -/
theorem dailyReport_create_update_same_witness :
    deriveUpdate exBody = deriveCreate exBody ∧
    (∀ row, postDailyReport exBody = .ok row →
      row.cash_particulars = exBody.cash_particulars ∧
      row.total_proceedings = exBody.total_proceedings) := by
  refine ⟨(dailyReport_create_update_same exBody "1").1, ?_⟩
  intro row hrow
  have h := (dailyReport_create_update_same exBody "1").2.1 row hrow
  exact ⟨h.2.1, h.2.2.2.2.2.2.2.1⟩

/-- C3 counterexample: on a body whose `total_proceedings` lacks the key
`"Cash Payouts"` (the other maps present and numeric) the computation does
NOT fail — property access on the absent key yields `undefined`, the
arithmetic coerces it to NaN, and the handler reaches its INSERT with
`overall_sales = NaN` — contradicting the claim that such a request fails
during the computation. -/
theorem dailyReport_missing_key_counterexample :
    postDailyReport exBodyMissingKey = .ok
      ⟨.str "2024-02-02", .obj (numObj [("a", 100)]), .null,
        .obj (numObj [("c", 30)]), .null, some 30, some 100, some 130,
        .num (some 20), .num (some 10), some (-100),
        .obj (numObj [("Cash Sales", 1), ("Credit Sales", 2),
          ("Outbound Sales", 3)]), none⟩ := by
  have e1 : objValues exBodyMissingKey.outbound_cash_sale =
      .ok [.num (some 30)] := rfl
  have e2 : objValues exBodyMissingKey.cash_particulars =
      .ok [.num (some 100)] := rfl
  have e3 : propGet exBodyMissingKey.total_proceedings "Cash Sales" =
      .ok (.num (some 1)) := rfl
  have e4 : propGet exBodyMissingKey.total_proceedings "Credit Sales" =
      .ok (.num (some 2)) := rfl
  have e5 : propGet exBodyMissingKey.total_proceedings "Outbound Sales" =
      .ok (.num (some 3)) := rfl
  have e6 : propGet exBodyMissingKey.total_proceedings "Cash Payouts" =
      .ok .undef := rfl
  simp only [postDailyReport, deriveCreate, e1, e2, e3, e4, e5, e6]
  norm_num [exBodyMissingKey, numSum, jnAdd, jnSub, toNumber, jsAdd,
    jsSubN, jsToPrim, isStr]

/-- C3 amended: for every POST /daily-report or PUT /daily-report/:id body
whose category maps are present (numeric) and whose `total_proceedings`
object is present with numeric values but is missing at least one of the
four required keys, the computation succeeds — the absent key reads as
`undefined`, which the arithmetic coerces to NaN — and the handler proceeds
to its INSERT (respectively UPDATE, for every id) with
`overall_sales = NaN`; no 400 validation error naming the missing key
exists on either path (neither handler has a validation branch at all). -/
theorem dailyReport_missing_key_is_nan
    (b : DailyReportBody) (cps ocs : List (String × ℚ))
    (tp : List (String × JsValue)) (k : String)
    (hcp : b.cash_particulars = .obj (numObj cps))
    (hocs : b.outbound_cash_sale = .obj (numObj ocs))
    (htp : b.total_proceedings = .obj tp)
    (hnum : ∀ p ∈ tp, ∃ q : ℚ, p.2 = .num (some q))
    (hk : k = "Cash Sales" ∨ k = "Credit Sales" ∨ k = "Outbound Sales" ∨
      k = "Cash Payouts")
    (hmiss : jsGetFields tp k = .undef) :
    (∃ row, postDailyReport b = .ok row ∧ row.overall_sales = none) ∧
    ∀ id, ∃ row, putDailyReport id b = .ok row ∧
      row.overall_sales = none := by
  have d1 := jsGetFields_of_numeric tp "Cash Sales" hnum
  have d2 := jsGetFields_of_numeric tp "Credit Sales" hnum
  have d3 := jsGetFields_of_numeric tp "Outbound Sales" hnum
  have d4 := jsGetFields_of_numeric tp "Cash Payouts" hnum
  have hone : jsGetFields tp "Cash Sales" = .undef ∨
      jsGetFields tp "Credit Sales" = .undef ∨
      jsGetFields tp "Outbound Sales" = .undef ∨
      jsGetFields tp "Cash Payouts" = .undef := by
    rcases hk with rfl | rfl | rfl | rfl
    · exact Or.inl hmiss
    · exact Or.inr (Or.inl hmiss)
    · exact Or.inr (Or.inr (Or.inl hmiss))
    · exact Or.inr (Or.inr (Or.inr hmiss))
  have hnan := overall_nan _ _ _ _ d1 d2 d3 d4 hone
  constructor
  · simp only [postDailyReport, deriveCreate, hcp, hocs, htp, objValues,
      propGet]
    exact ⟨_, rfl, hnan⟩
  · intro id
    simp only [putDailyReport, deriveUpdate, hcp, hocs, htp, objValues,
      propGet]
    exact ⟨_, rfl, hnan⟩

/-- Witness for the amended C3 at the concrete missing-key body: both the
INSERT of the create route and the UPDATE of the update route are reached
and their `overall_sales` parameter is NaN. -/
theorem dailyReport_missing_key_is_nan_witness :
    (postDailyReport exBodyMissingKey).toOption.map
      DailyReportInsert.overall_sales = some none ∧
    (putDailyReport "1" exBodyMissingKey).toOption.map
      DailyReportUpdate.overall_sales = some none := by
  obtain ⟨⟨row, h1, h2⟩, hput⟩ := dailyReport_missing_key_is_nan
    exBodyMissingKey [("a", 100)] [("c", 30)]
    (numObj [("Cash Sales", 1), ("Credit Sales", 2), ("Outbound Sales", 3)])
    "Cash Payouts" rfl rfl rfl (by simp [numObj])
    (Or.inr (Or.inr (Or.inr rfl))) (by simp [numObj, jsGetFields])
  obtain ⟨row2, h3, h4⟩ := hput "1"
  constructor
  · rw [h1]
    simpa [Except.toOption] using h2
  · rw [h3]
    simpa [Except.toOption] using h4

/-- C4: POST /accounts against a table whose stored names are trimmed (as
every sequentially created account's is) and already containing an account
with the same trimmed name answers 400, runs only the existence SELECT (no
INSERT), and leaves the table unchanged; consequently any sequence of
POST /accounts requests starting from an empty table yields pairwise
distinct account names — at most one account per trimmed name. -/
theorem postAccounts_duplicate_rejected
    (db : List AccountRow) (name : String) (balance balanceType : JsValue)
    (htrimmed : ∀ a ∈ db, jsTrim a.name = a.name)
    (hdup : ∃ a ∈ db, jsTrim a.name = jsTrim name) :
    (postAccounts db (.str name) balance balanceType).status = 400 ∧
    (postAccounts db (.str name) balance balanceType).db = db ∧
    (postAccounts db (.str name) balance balanceType).queriesRun = 1 ∧
    ∀ reqs : List (JsValue × JsValue × JsValue),
      ((runPostAccounts reqs []).map AccountRow.name).Nodup := by
  have hany : db.any (fun a => a.name = jsTrim name) = true := by
    obtain ⟨a, ha, he⟩ := hdup
    refine List.any_eq_true.mpr ⟨a, ha, ?_⟩
    have hn : a.name = jsTrim name := by
      rw [← htrimmed a ha]
      exact he
    simp [hn]
  refine ⟨?_, ?_, ?_, fun reqs => runPostAccounts_nodup reqs [] (by simp)⟩
  · simp [postAccounts, jsTrimName, hany]
  · simp [postAccounts, jsTrimName, hany]
  · simp [postAccounts, jsTrimName, hany]

/-- Witness for C4: a second creation of `"Acme"` is rejected with 400 and
no insert, and two identical sequential creations leave no duplicate
name. -/
theorem postAccounts_duplicate_rejected_witness :
    (postAccounts exAccountsDb (.str "Acme") .null .null).status = 400 ∧
    (postAccounts exAccountsDb (.str "Acme") .null .null).db = exAccountsDb ∧
    (postAccounts exAccountsDb (.str "Acme") .null .null).queriesRun = 1 ∧
    ((runPostAccounts [(.str "Acme", .null, .null), (.str "Acme", .null, .null)]
      []).map AccountRow.name).Nodup := by
  have h := postAccounts_duplicate_rejected exAccountsDb "Acme" .null .null
    (by
      intro a ha
      simp only [exAccountsDb, List.mem_singleton] at ha
      subst ha
      rfl)
    ⟨⟨1, "Acme", .null, .null⟩, by simp [exAccountsDb], rfl⟩
  exact ⟨h.1, h.2.1, h.2.2.1, h.2.2.2 _⟩

theorem map_ite_id {α : Type} (l : List α) (p : α → Prop) [DecidablePred p]
    (f : α → α) (h : ∀ r ∈ l, ¬ p r) :
    l.map (fun r => if p r then f r else r) = l := by
  induction l with
  | nil => rfl
  | cons x xs ih =>
    rw [List.map_cons, if_neg (h x (List.mem_cons_self x xs)),
      ih (fun r hr => h r (List.mem_cons_of_mem x hr))]

/-- C5: POST /daily-receivables upserts by `report_date`: from a state with
no row for a (non-empty) date `d`, a first POST inserts a single fresh row
with status `'open'`, and a second POST for the same date with a different
`opening_balance` updates that row in place — afterwards exactly one row
exists for `d`, it carries the second call's `opening_balance`, its status
is still `'open'`, and the table did not grow. -/
theorem dailyReceivables_upsert
    (db : List ReceivablesRow) (d : String) (q1 q2 : ℚ)
    (cb1 rd1 cb2 rd2 : JsValue)
    (hd : d ≠ "")
    (hnew : ∀ r ∈ db, r.report_date ≠ d)
    (_hne : q1 ≠ q2) :
    (postDailyReceivables db d (.num (some q1)) cb1 rd1).status = 200 ∧
    (postDailyReceivables db d (.num (some q1)) cb1 rd1).db =
      db ++ [⟨d, some q1, coerceBalance cb1, normalizeReportData rd1, "open"⟩] ∧
    (postDailyReceivables
        (db ++ [⟨d, some q1, coerceBalance cb1, normalizeReportData rd1, "open"⟩])
        d (.num (some q2)) cb2 rd2).status = 200 ∧
    (postDailyReceivables
        (db ++ [⟨d, some q1, coerceBalance cb1, normalizeReportData rd1, "open"⟩])
        d (.num (some q2)) cb2 rd2).db =
      db ++ [⟨d, some q2, coerceBalance cb2, normalizeReportData rd2, "open"⟩] ∧
    ((postDailyReceivables
        (db ++ [⟨d, some q1, coerceBalance cb1, normalizeReportData rd1, "open"⟩])
        d (.num (some q2)) cb2 rd2).db.countP
      (fun r => r.report_date = d)) = 1 ∧
    (postDailyReceivables
        (db ++ [⟨d, some q1, coerceBalance cb1, normalizeReportData rd1, "open"⟩])
        d (.num (some q2)) cb2 rd2).db.length =
      (db ++ [(⟨d, some q1, coerceBalance cb1, normalizeReportData rd1,
        "open"⟩ : ReceivablesRow)]).length := by
  have hany1 : db.any (fun row => row.report_date = d) = false := by
    simp only [List.any_eq_false, decide_eq_true_eq]
    exact hnew
  have hpost1 : postDailyReceivables db d (.num (some q1)) cb1 rd1 =
      ⟨200, db ++ [(⟨d, some q1, coerceBalance cb1, normalizeReportData rd1,
        "open"⟩ : ReceivablesRow)]⟩ := by
    simp [postDailyReceivables, hd, hany1, coerceBalance, jsParseFloatV]
  have hany2 : (db ++ [(⟨d, some q1, coerceBalance cb1,
      normalizeReportData rd1, "open"⟩ : ReceivablesRow)]).any
      (fun row => row.report_date = d) = true := by
    refine List.any_eq_true.mpr
      ⟨⟨d, some q1, coerceBalance cb1, normalizeReportData rd1, "open"⟩,
        List.mem_append_right db (by simp), by simp⟩
  have hpost2 : postDailyReceivables
      (db ++ [⟨d, some q1, coerceBalance cb1, normalizeReportData rd1, "open"⟩])
      d (.num (some q2)) cb2 rd2 =
      ⟨200, db ++ [⟨d, some q2, coerceBalance cb2, normalizeReportData rd2,
        "open"⟩]⟩ := by
    simp only [postDailyReceivables]
    rw [if_neg hd, if_pos hany2]
    rw [List.map_append,
      map_ite_id db (fun r => r.report_date = d)
        (fun row => { row with
          opening_balance := coerceBalance (JsValue.num (some q2)),
          closing_balance := coerceBalance cb2,
          report_data := normalizeReportData rd2 }) hnew]
    simp [coerceBalance, jsParseFloatV]
  have hcount0 : db.countP (fun r => r.report_date = d) = 0 := by
    refine List.countP_eq_zero.mpr ?_
    intro a ha
    simpa using hnew a ha
  refine ⟨by rw [hpost1], by rw [hpost1], by rw [hpost2], by rw [hpost2],
    ?_, ?_⟩
  · rw [hpost2]
    simp [List.countP_append, hcount0, List.countP_cons]
  · rw [hpost2]
    simp

/-- Witness for C5: two sequential POSTs for 2024-01-01 with opening
balances 5 then 7 leave exactly one row for that date, carrying 7, status
still `'open'`. -/
theorem dailyReceivables_upsert_witness :
    (postDailyReceivables [] "2024-01-01" (.num (some 5)) .undef .undef).db =
      [⟨"2024-01-01", some 5, some 0, .obj [], "open"⟩] ∧
    (postDailyReceivables [⟨"2024-01-01", some 5, some 0, .obj [], "open"⟩]
      "2024-01-01" (.num (some 7)) .undef .undef).db =
      [⟨"2024-01-01", some 7, some 0, .obj [], "open"⟩] ∧
    ((postDailyReceivables [⟨"2024-01-01", some 5, some 0, .obj [], "open"⟩]
      "2024-01-01" (.num (some 7)) .undef .undef).db.countP
      (fun r => r.report_date = "2024-01-01")) = 1 := by
  have h := dailyReceivables_upsert [] "2024-01-01" 5 7 .undef .undef .undef
    .undef (by decide) (by simp) (by norm_num)
  simp only [coerceBalance, normalizeReportData, List.nil_append] at h
  exact ⟨h.2.1, h.2.2.2.1, h.2.2.2.2.1⟩

/-- C6 counterexample: `debit = "0"`, `credit = ""` passes the
provided-check (the string `"0"` is truthy), parses to 0, and the creation
succeeds storing `debit = 0`, `credit = 0` — contradicting the claim that
at least one of debit and credit must be non-zero for creation to
succeed. -/
theorem postTransaction_zero_string_counterexample :
    postTransaction (.str "0") (.str "") = .created (some 0) (some 0) := by
  simp +decide [postTransaction, truthy, jsParseFloatV, parseFloatStr,
    parseSigned, parseNumAfterSign, parseMantissa, parseExpPart, takeDigits,
    natFromDigits, fracFromDigits, digToNat, isJsSpace]

/-- C6 amended: POST /accounts/:id/transactions rejects with 400 when both
`debit` and `credit` are blank or absent; a blank value coerces to 0 (so
`debit="10"`, `credit=""` is stored as debit 10, credit 0); a provided
value that does not parse as a number is rejected with 400; what creation
actually requires is that at least one of the two values be truthy (the
number 0 and the blank string are falsy, but the string `"0"` is truthy and
lets a 0/0 row through) with both coerced values numeric; and
PUT /transactions/:id performs no such check, forwarding the fields
verbatim. -/
theorem postTransaction_validation
    (debit credit : JsValue) :
    ((debit = .str "" ∨ debit = .undef) → (credit = .str "" ∨ credit = .undef) →
      postTransaction debit credit =
        .badRequest "Either debit or credit must be entered.") ∧
    postTransaction (.str "10") (.str "") = .created (some 10) (some 0) ∧
    (truthy debit = true → jsParseFloatV debit = none →
      postTransaction debit credit =
        .badRequest "Invalid numeric input for debit or credit.") ∧
    (∀ dn cn, postTransaction debit credit = .created dn cn →
      (truthy debit = true ∨ truthy credit = true) ∧ dn ≠ none ∧ cn ≠ none) ∧
    (∀ date details, putTransaction date debit credit details =
      .update date debit credit details) := by
  refine ⟨?_, ?_, ?_, ?_, fun date details => rfl⟩
  · intro hdeb hcred
    have hd : truthy debit = false := by
      rcases hdeb with rfl | rfl <;> rfl
    have hc : truthy credit = false := by
      rcases hcred with rfl | rfl <;> rfl
    simp [postTransaction, hd, hc]
  · simp +decide [postTransaction, truthy, jsParseFloatV, parseFloatStr,
      parseSigned, parseNumAfterSign, parseMantissa, parseExpPart,
      takeDigits, natFromDigits, fracFromDigits, digToNat, isJsSpace]
  · intro ht hnan
    simp [postTransaction, ht, hnan]
  · intro dn cn hcr
    by_cases hbt : ¬ truthy debit ∧ ¬ truthy credit
    · simp [postTransaction, hbt] at hcr
    · refine ⟨?_, ?_, ?_⟩
      · rcases Decidable.not_and_iff_or_not.mp hbt with h | h
        · exact Or.inl (by simpa using h)
        · exact Or.inr (by simpa using h)
      all_goals
        simp only [postTransaction, if_neg hbt] at hcr
        by_cases hdnone : (if truthy debit then jsParseFloatV debit
            else some 0) = none ∨ (if truthy credit then jsParseFloatV credit
            else some 0) = none
        · simp [hdnone] at hcr
        · simp only [if_neg hdnone, TxOutcome.created.injEq] at hcr
          rw [not_or] at hdnone
          first
            | exact hcr.1 ▸ hdnone.1
            | exact hcr.2 ▸ hdnone.2

/-- Witness for the amended C6: both blank is rejected, a concrete
`"10"` / blank creation stores 10 and 0, and an edit forwards unchecked. -/
theorem postTransaction_validation_witness :
    postTransaction (.str "") .undef =
      .badRequest "Either debit or credit must be entered." ∧
    postTransaction (.str "10") (.str "") = .created (some 10) (some 0) ∧
    putTransaction .null (.num (some 0)) (.num (some 0)) .null =
      .update .null (.num (some 0)) (.num (some 0)) .null := by
  have h := postTransaction_validation (.str "") .undef
  have h10 := (postTransaction_validation (.str "10") (.str "")).2.1
  exact ⟨h.1 (Or.inl rfl) (Or.inr rfl), h10,
    (postTransaction_validation (.num (some 0)) (.num (some 0))).2.2.2.2
      .null .null⟩

/-- C7: PUT /daily-receivables/finish/:date on a date with an existing
report answers 200 and sets that report's status to `'finished'` while
leaving its other fields (report_date, opening_balance, closing_balance,
report_data) unchanged, touching no non-matching row and adding or removing
none; on a date (of the stored canonical length) matching no report it
answers 404 and changes nothing. -/
theorem finishReceivables_transition (db : List ReceivablesRow) (d : String) :
    (∀ r, r ∈ db → r.report_date = d →
      (finishDailyReceivables db d).status = 200 ∧
      ({ r with status := "finished" } : ReceivablesRow) ∈
        (finishDailyReceivables db d).db ∧
      (finishDailyReceivables db d).db.length = db.length ∧
      ∀ x ∈ db, likeMatch d.data x.report_date.data = false →
        x ∈ (finishDailyReceivables db d).db) ∧
    ((∀ r ∈ db, r.report_date.length ≤ d.length) →
      (∀ r ∈ db, r.report_date ≠ d) →
      finishDailyReceivables db d = ⟨404, db⟩) := by
  constructor
  · intro r hr hrd
    have hlm : likeMatch d.data r.report_date.data = true := by
      rw [hrd]
      exact likeMatch_self _
    have hany : db.any (fun x => likeMatch d.data x.report_date.data) = true :=
      List.any_eq_true.mpr ⟨r, hr, hlm⟩
    refine ⟨?_, ?_, ?_, ?_⟩
    · simp [finishDailyReceivables, hany]
    · simp only [finishDailyReceivables, hany, if_true]
      have hm := List.mem_map_of_mem (fun x =>
        if likeMatch d.data x.report_date.data then
          { x with status := "finished" } else x) hr
      simpa [hlm] using hm
    · simp [finishDailyReceivables, hany]
    · intro x hx hxf
      simp only [finishDailyReceivables, hany, if_true]
      have hm := List.mem_map_of_mem (fun x =>
        if likeMatch d.data x.report_date.data then
          { x with status := "finished" } else x) hx
      simpa [hxf] using hm
  · intro hlen hne
    have hany : db.any (fun x => likeMatch d.data x.report_date.data) = false := by
      rw [List.any_eq_false]
      intro x hx hcontra
      have hle : x.report_date.data.length ≤ d.data.length := hlen x hx
      have heq : d.data = x.report_date.data :=
        likeMatch_eq_of_le _ _ hcontra hle
      exact hne x hx (String.ext heq.symm)
    simp [finishDailyReceivables, hany]

set_option maxRecDepth 4000 in
/-- Witness for C7: finishing 2024-01-01 marks the stored report finished
with its data intact, finishing an absent date answers 404 and leaves the
table alone. -/
theorem finishReceivables_transition_witness :
    (finishDailyReceivables exRecDb "2024-01-01").status = 200 ∧
    (⟨"2024-01-01", some 0, some 0, .obj [("rows", .num (some 2))],
      "finished"⟩ : ReceivablesRow) ∈
      (finishDailyReceivables exRecDb "2024-01-01").db ∧
    finishDailyReceivables exRecDb "2099-12-31" = ⟨404, exRecDb⟩ := by
  have h1 := (finishReceivables_transition exRecDb "2024-01-01").1
    ⟨"2024-01-01", some 0, some 0, .obj [("rows", .num (some 2))], "open"⟩
    (by simp [exRecDb]) rfl
  have h2 := (finishReceivables_transition exRecDb "2099-12-31").2
    (by
      intro r hrm
      simp only [exRecDb, List.mem_singleton] at hrm
      subst hrm
      decide)
    (by
      intro r hrm
      simp only [exRecDb, List.mem_singleton] at hrm
      subst hrm
      decide)
  exact ⟨h1.1, h1.2.1, h2⟩

/-- C8 counterexample: a cheque created with every required field present
but `date_posted` in the (Postgres-accepted) slashed form `"2024/01/05"` is
stored as the day 2024-01-05 and fetched back with
`date_posted = "2024-01-05"` — a non-numeric field of the fetched cheque
that does not equal the submitted value, contradicting the claim's
unqualified field equality. -/
theorem cheques_roundtrip_counterexample :
    postCheque [] (.str "1001") (.str "RBL") (.str "Payer A")
      (.str "Payee B") (.str "150") (.num (some 5)) (.str "2024/01/05")
      (.str "posted") =
      .okDb [⟨"1001", "RBL", "Payer A", "Payee B", 150, 5, none,
        some "2024-01-05", "posted"⟩] ∧
    getCheque [⟨"1001", "RBL", "Payer A", "Payee B", 150, 5, none,
        some "2024-01-05", "posted"⟩] "1001" =
      some ⟨"1001", "RBL", "Payer A", "Payee B", some 150, some 5, none,
        some "2024-01-05", "posted"⟩ ∧
    ("2024-01-05" : String) ≠ "2024/01/05" := by
  have hpn : pgNumeric (.str "150") = some 150 := by
    simp +decide [pgNumeric, parseSigned, parseNumAfterSign, parseMantissa,
      parseExpPart, takeDigits, natFromDigits, fracFromDigits, digToNat,
      isJsSpace]
  have hpd : pgDate (.str "2024/01/05") = some "2024-01-05" := by decide
  refine ⟨?_, ?_, by decide⟩
  · simp only [postCheque]
    rw [if_neg (by decide)]
    simp only [pgText, hpn, hpd]
    simp [pgNumeric]
  · simp [getCheque]

/-- C8 amended: a cheque created via POST /cheques with all eight fields
present (truthy), the cheque number fresh, the text-column fields bound as
strings, numbers or booleans, the numeric fields database-coercible and the
date accepted by the date column, then fetched via
GET /cheques/:cheque_number, comes back with every submitted field equal to
what was sent, except that the numeric fields (`amount`, `admin_charge`,
and the never-submitted `net_to_payee`, which returns as NaN) come back as
numbers regardless of string/number submission form, `date_posted` comes
back as the stored day's canonical `YYYY-MM-DD` text (equal to the
submission exactly when the submission was already canonical), and a text
field submitted as a non-string comes back as its database string form. -/
theorem cheques_roundtrip
    (db : List ChequeRow) (nv bdv pyv pev stv dpv amount admin_charge : JsValue)
    (n bd py pe st dnorm : String) (qa qc : ℚ)
    (htn : truthy nv = true) (hnn : pgText nv = some n)
    (htbd : truthy bdv = true) (hbdn : pgText bdv = some bd)
    (htpy : truthy pyv = true) (hpyn : pgText pyv = some py)
    (htpe : truthy pev = true) (hpen : pgText pev = some pe)
    (htst : truthy stv = true) (hstn : pgText stv = some st)
    (hamt : truthy amount = true) (hamn : pgNumeric amount = some qa)
    (hact : truthy admin_charge = true)
    (hacn : pgNumeric admin_charge = some qc)
    (htdp : truthy dpv = true) (hdpn : pgDate dpv = some dnorm)
    (hfresh : ∀ c ∈ db, c.cheque_number ≠ n) :
    postCheque db nv bdv pyv pev amount admin_charge dpv stv =
      .okDb (db ++ [⟨n, bd, py, pe, qa, qc, none, some dnorm, st⟩]) ∧
    getCheque (db ++ [⟨n, bd, py, pe, qa, qc, none, some dnorm, st⟩]) n =
      some ⟨n, bd, py, pe, some qa, some qc, none, some dnorm, st⟩ := by
  have hanyf : db.any (fun c => c.cheque_number = n) = false := by
    simp only [List.any_eq_false, decide_eq_true_eq]
    exact hfresh
  constructor
  · simp only [postCheque]
    rw [if_neg (by
      simp [htn, htbd, htpy, htpe, htst, htdp, hamt, hact])]
    simp only [hnn, hbdn, hpyn, hpen, hstn, hamn, hacn, hdpn]
    rw [if_neg (by simp [hanyf])]
  · simp only [getCheque]
    rw [List.find?_append]
    have hnone : db.find? (fun c => c.cheque_number = n) = none := by
      rw [List.find?_eq_none]
      intro c hc
      simpa using hfresh c hc
    rw [hnone]
    simp

/-- Witness for the amended C8 at a concrete cheque whose amount is the
string `"150"`, whose admin charge is the number 5 (both come back as
numbers), whose payer is the boolean `true` (stored and fetched as the text
`"true"`) and whose date is already canonical (and so comes back equal). -/
theorem cheques_roundtrip_witness :
    postCheque [] (.str "1001") (.str "RBL") (.bool true)
      (.str "Payee B") (.str "150") (.num (some 5)) (.str "2024-01-05")
      (.str "posted") =
      .okDb [⟨"1001", "RBL", "true", "Payee B", 150, 5, none,
        some "2024-01-05", "posted"⟩] ∧
    getCheque [⟨"1001", "RBL", "true", "Payee B", 150, 5, none,
        some "2024-01-05", "posted"⟩] "1001" =
      some ⟨"1001", "RBL", "true", "Payee B", some 150, some 5, none,
        some "2024-01-05", "posted"⟩ := by
  have h := cheques_roundtrip [] (.str "1001") (.str "RBL") (.bool true)
    (.str "Payee B") (.str "posted") (.str "2024-01-05") (.str "150")
    (.num (some 5)) "1001" "RBL" "true" "Payee B" "posted" "2024-01-05"
    150 5 (by decide) rfl (by decide) rfl (by decide) rfl (by decide) rfl
    (by decide) rfl (by decide)
    (by
      simp +decide [pgNumeric, parseSigned, parseNumAfterSign, parseMantissa,
        parseExpPart, takeDigits, natFromDigits, fracFromDigits, digToNat,
        isJsSpace])
    (by decide) rfl (by decide) (by decide) (by simp)
  simpa using h

/-- C9: delete-not-found behaviour is inconsistent exactly as claimed — on
a key matching no row, DELETE /accounts/:id and DELETE /daily-report/:id
still answer 200 with their success messages, while
DELETE /cheques/:cheque_number and DELETE /daily-receivables/:date check
the returned rows and answer 404. -/
theorem delete_not_found_inconsistency
    (adb : List AccountRow) (aid : ℕ)
    (rdb : List DailyReportStored) (rid : String)
    (cdb : List ChequeRow) (cn : String)
    (recdb : List ReceivablesRow) (recd : String)
    (ha : ∀ a ∈ adb, a.id ≠ aid)
    (hr : ∀ r ∈ rdb, r.id ≠ rid)
    (hc : ∀ c ∈ cdb, c.cheque_number ≠ cn)
    (hrec : ∀ r ∈ recdb, r.report_date ≠ recd) :
    deleteAccount adb aid = (200, "Account deleted successfully", adb) ∧
    deleteDailyReport rdb rid =
      (200, "✅ Report deleted successfully!", rdb) ∧
    deleteCheque cdb cn = (404, "Cheque not found", cdb) ∧
    deleteDailyReceivables recdb recd =
      (404, "No report found to delete", recdb) := by
  have hca : cdb.any (fun c => c.cheque_number = cn) = false := by
    simp only [List.any_eq_false, decide_eq_true_eq]
    exact hc
  have hra : recdb.any (fun r => r.report_date = recd) = false := by
    simp only [List.any_eq_false, decide_eq_true_eq]
    exact hrec
  refine ⟨?_, ?_, ?_, ?_⟩
  · simp only [deleteAccount]
    rw [List.filter_eq_self.mpr (by
      intro a haa
      simpa using ha a haa)]
  · simp only [deleteDailyReport]
    rw [List.filter_eq_self.mpr (by
      intro r hrr
      simpa using hr r hrr)]
  · simp only [deleteCheque]
    rw [if_neg (by simp [hca])]
  · simp only [deleteDailyReceivables]
    rw [if_neg (by simp [hra])]

/-- Witness for C9 on empty tables: 200/200/404/404. -/
theorem delete_not_found_inconsistency_witness :
    deleteAccount [] 7 = (200, "Account deleted successfully", []) ∧
    deleteDailyReport [] "7" = (200, "✅ Report deleted successfully!", []) ∧
    deleteCheque [] "7" = (404, "Cheque not found", []) ∧
    deleteDailyReceivables [] "2024-01-01" =
      (404, "No report found to delete", []) :=
  delete_not_found_inconsistency [] 7 [] "7" [] "7" [] "2024-01-01"
    (by simp) (by simp) (by simp) (by simp)

/-- C10: POST /accounts with a body whose `name` is absent or not a string
throws on `name.trim()` inside the try block before any SQL statement runs;
the catch answers the generic 500 and the table is unchanged — never a 400
validation answer. -/
theorem postAccounts_nonstring_name_500
    (db : List AccountRow) (name balance balanceType : JsValue)
    (h : ∀ s : String, name ≠ .str s) :
    (postAccounts db name balance balanceType).status = 500 ∧
    (postAccounts db name balance balanceType).db = db ∧
    (postAccounts db name balance balanceType).queriesRun = 0 := by
  cases name with
  | str s => exact absurd rfl (h s)
  | undef => exact ⟨rfl, rfl, rfl⟩
  | null => exact ⟨rfl, rfl, rfl⟩
  | bool b => exact ⟨rfl, rfl, rfl⟩
  | num j => exact ⟨rfl, rfl, rfl⟩
  | obj fs => exact ⟨rfl, rfl, rfl⟩

/-- Witness for C10: an absent name answers 500 with no insert and no query
run. -/
theorem postAccounts_nonstring_name_500_witness :
    (postAccounts exAccountsDb .undef .null .null).status = 500 ∧
    (postAccounts exAccountsDb .undef .null .null).db = exAccountsDb ∧
    (postAccounts exAccountsDb .undef .null .null).queriesRun = 0 :=
  postAccounts_nonstring_name_500 exAccountsDb .undef .null .null
    (fun _ hs => JsValue.noConfusion hs)
